import Mathlib

/-!
Shallow embedding of the byBitTradingAPI streaming signal-detection core.

The definitions below are translated from the JavaScript source:
  * src/marketScanner.js            (scanner variant: detectors, checkForAlerts,
                                     processCommand)
  * src/services/MarketDataService.js and src/unnamed/part_012
                                    (service variant: kline store, detectors,
                                     checkForSignals, updateFilters)
  * src/services/WebSocketService.js (WebSocketService and SocketIOService:
                                     subscriptions and broadcast)
  * src/services/SignalService.js   (calculateConfidence, generateSignal)

Numbers are modelled as rationals.  JavaScript division can produce
Infinity / NaN when the denominator is zero; where the source may divide by
zero we model the result with the JsNum type below, whose comparisons follow
IEEE semantics (NaN compares false, +Infinity is greater than every number).
-/

namespace ByBitSpec

/-- Result of a JavaScript floating-point division that may hit a zero
denominator: a finite rational, +Infinity, -Infinity or NaN. -/
inductive JsNum where
  | num (q : ℚ)
  | posInf
  | negInf
  | nan
deriving DecidableEq, Repr

/-- JavaScript division `a / b`: finite quotient when `b ≠ 0`, otherwise
`±Infinity` by the sign of `a`, and `NaN` for `0 / 0`. -/
def jsDiv (a b : ℚ) : JsNum :=
  if b ≠ 0 then .num (a / b)
  else if 0 < a then .posInf
  else if a < 0 then .negInf
  else .nan

/-- JavaScript comparison `x > t` for a division result (NaN compares false). -/
def JsNum.gtQ : JsNum → ℚ → Bool
  | .num q, t => decide (t < q)
  | .posInf, _ => true
  | .negInf, _ => false
  | .nan, _ => false

/-- JavaScript comparison `x < t` for a division result (NaN compares false). -/
def JsNum.ltQ : JsNum → ℚ → Bool
  | .num q, t => decide (q < t)
  | .posInf, _ => false
  | .negInf, _ => true
  | .nan, _ => false

/-- JavaScript comparison `x >= t` for a division result (NaN compares false). -/
def JsNum.geQ : JsNum → ℚ → Bool
  | .num q, t => decide (t ≤ q)
  | .posInf, _ => true
  | .negInf, _ => false
  | .nan, _ => false

/-- JavaScript comparison `x <= t` for a division result (NaN compares false). -/
def JsNum.leQ : JsNum → ℚ → Bool
  | .num q, t => decide (q ≤ t)
  | .posInf, _ => false
  | .negInf, _ => true
  | .nan, _ => false

/-! ## Candles

The scanner receives Bybit kline rows as arrays
`[startTime, open, high, low, close, volume]` (current candle first).
We model a row as a structure; field `close` is index 4 and `volume` index 5
of the JavaScript array. -/

/-- A Bybit kline row as consumed by marketScanner.js (current candle first
in a list of these). -/
structure ScannerCandle where
  startTime : ℚ
  openPrice : ℚ
  high : ℚ
  low : ℚ
  close : ℚ
  volume : ℚ
deriving DecidableEq, Repr, Inhabited

/-- Volume of the current (head) candle: `parseFloat(candles[0][5])`. -/
def currentVol (candles : List ScannerCandle) : ℚ := candles.headI.volume

/-- Volumes of the previous candles: `candles.slice(1)` mapped to index 5. -/
def prevVols (candles : List ScannerCandle) : List ℚ :=
  candles.tail.map (·.volume)

/-- Average volume of the previous candles, as computed by both
detectVolumeSpike variants:
`previousCandles.reduce((s, c) => s + parseFloat(c[5]), 0) / previousCandles.length`. -/
def avgPrevVol (candles : List ScannerCandle) : ℚ :=
  (prevVols candles).sum / ((prevVols candles).length : ℚ)

/-- src/marketScanner.js `detectVolumeSpike(candles, threshold)`:
returns false for fewer than 10 candles, otherwise
`currentVolume > avgVolume * threshold`. -/
def scannerDetectVolumeSpike (candles : List ScannerCandle) (threshold : ℚ) : Bool :=
  if candles.length < 10 then false
  else decide (avgPrevVol candles * threshold < currentVol candles)

/-- src/unnamed/part_012 `MarketDataService.detectVolumeSpike(candles, threshold)`
(the candle-based variant "from btcEthMonitor.js"): false for fewer than
2 candles; if the previous-candle average is 0, spike iff the current volume
is positive; otherwise `currentVolume > avgVolume * threshold`. -/
def mdDetectVolumeSpike (candles : List ScannerCandle) (threshold : ℚ) : Bool :=
  if candles.length < 2 then false
  else if (prevVols candles).length = 0 then false
  else if avgPrevVol candles = 0 then decide (0 < currentVol candles)
  else decide (avgPrevVol candles * threshold < currentVol candles)

/-! ## Price breakout -/

/-- Direction reported by a price-breakout detector. -/
inductive BreakoutDirection where
  | up
  | down
deriving DecidableEq, Repr

/-- Return value of marketScanner.js `detectPriceBreakout`. -/
structure BreakoutResult where
  isBreakout : Bool
  direction : Option BreakoutDirection
deriving DecidableEq, Repr

/-- Close of the current (head) candle: `parseFloat(candles[0][4])`. -/
def curClose (candles : List ScannerCandle) : ℚ := candles.headI.close

/-- Close of the previous candle: `parseFloat(candles[1][4])`. -/
def prevClose (candles : List ScannerCandle) : ℚ := candles.tail.headI.close

/-- src/marketScanner.js `detectPriceBreakout(candles, threshold)`:
breakout up when `currentClose > previousClose * threshold`, otherwise
breakdown when `currentClose < previousClose / threshold`, otherwise none;
fewer than 2 candles gives none. -/
def scannerDetectPriceBreakout (candles : List ScannerCandle) (threshold : ℚ) :
    BreakoutResult :=
  if candles.length < 2 then ⟨false, none⟩
  else if prevClose candles * threshold < curClose candles then ⟨true, some .up⟩
  else if curClose candles < prevClose candles / threshold then ⟨true, some .down⟩
  else ⟨false, none⟩

/-! ## Order book imbalance -/

/-- Direction of an order-book imbalance. -/
inductive ImbalanceDirection where
  | buy
  | sell
deriving DecidableEq, Repr

/-- Order book as consumed by `detectOrderBookImbalance`: fields `b` (bids)
and `a` (asks) are lists of `(price, size)` levels; `none` models an absent
field, which the JavaScript guard `!orderBook.b || !orderBook.a` rejects
(an empty array is truthy and passes that guard). -/
structure OrderBook where
  b : Option (List (ℚ × ℚ))
  a : Option (List (ℚ × ℚ))
deriving DecidableEq, Repr

/-- Return value of `detectOrderBookImbalance`; the early guard return
`{ isImbalanced: false }` is modelled with `direction = none, ratio = none`. -/
structure ImbalanceResult where
  isImbalanced : Bool
  direction : Option ImbalanceDirection
  ratio : Option JsNum
deriving DecidableEq, Repr

/-- Sum of the sizes of the top 10 levels:
`levels.slice(0, 10).reduce((s, l) => s + parseFloat(l[1]), 0)`. -/
def sumTop10 (levels : List (ℚ × ℚ)) : ℚ := ((levels.take 10).map Prod.snd).sum

/-- src/marketScanner.js / src/unnamed/part_012 `detectOrderBookImbalance`:
ratio of top-10 bid to ask volume, imbalanced iff
`ratio > threshold || ratio < 1/threshold`, direction buy/sell accordingly.
Only an absent `b` or `a` field short-circuits; an empty list is summed,
so a zero ask volume produces an Infinity/NaN ratio. -/
def detectOrderBookImbalance (orderBook : OrderBook) (threshold : ℚ) :
    ImbalanceResult :=
  match orderBook.b, orderBook.a with
  | some bl, some al =>
    let bidVolume := sumTop10 bl
    let askVolume := sumTop10 al
    let r := jsDiv bidVolume askVolume
    ⟨r.gtQ threshold || r.ltQ (1 / threshold),
     if r.gtQ threshold then some .buy
     else if r.ltQ (1 / threshold) then some .sell
     else none,
     some r⟩
  | _, _ => ⟨false, none, none⟩

/-! ## MarketDataService: kline store and detectors

src/services/MarketDataService.js (and its variant src/unnamed/part_012)
keeps per-symbol/interval candle series in `this.klineData` and ticker data
in `this.marketData`. -/

/-- A stored candle of MarketDataService's `klineData` series. -/
structure MdKline where
  timestamp : ℤ
  openPrice : ℚ
  high : ℚ
  low : ℚ
  close : ℚ
  volume : ℚ
deriving DecidableEq, Repr, Inhabited

/-- Ticker state produced by `handleTickerUpdate` and consumed by the
detectors of `checkForSignals`. -/
structure TickerState where
  symbol : String
  price : ℚ
  change24h : ℚ
  volume24h : ℚ
  turnover24h : ℚ
deriving DecidableEq, Repr

/-- Scanner filter configuration of MarketDataService
(`this.scannerFilters`); the two numeric thresholds gate their detector by
JavaScript truthiness (0 disables). -/
structure MdFilters where
  volumeSpike : ℚ
  priceBreakout : ℚ
  spoofDetection : Bool
  whaleAlerts : Bool
  liquidityImbalance : Bool
deriving DecidableEq, Repr

/-- The constructor defaults of src/services/MarketDataService.js. -/
def defaultMdFilters : MdFilters := ⟨12/10, 101/100, true, true, true⟩

/-- `handleKlineUpdate`: replace the first (unique) entry with the same
`timestamp` by the incoming kline.  Models
`klineArray.findIndex(k => k.timestamp === t)` followed by in-place
assignment at that index. -/
def replaceByTimestamp : List MdKline → MdKline → List MdKline
  | [], _ => []
  | x :: xs, k =>
    if x.timestamp = k.timestamp then k :: xs else x :: replaceByTimestamp xs k

/-- One `handleKlineUpdate` step for a single incoming kline on one
symbol+interval series: update in place when the open time already exists,
otherwise push and `shift()` the oldest entry once the series exceeds 100. -/
def handleKlineUpsert (klineArray : List MdKline) (k : MdKline) : List MdKline :=
  if klineArray.any (fun x => x.timestamp == k.timestamp) then
    replaceByTimestamp klineArray k
  else if 100 < (klineArray ++ [k]).length then (klineArray ++ [k]).tail
  else klineArray ++ [k]

/-- A whole sequence of kline updates applied to an initially absent series
(`this.klineData.get(key) || []`). -/
def ingestKlines (ops : List MdKline) : List MdKline :=
  ops.foldl handleKlineUpsert []

/-- Evidence payload of one finding of MarketDataService's detectors.
Formatted string fields of the source (`toFixed` renderings) carry the same
numeric information and are modelled by the raw numbers. -/
inductive MdFinding where
  | volumeSpike (currentVolume avgVolume : ℚ)
  | priceBreakout (direction : BreakoutDirection) (previousPrice currentPrice : ℚ)
  | spoof (side : ImbalanceDirection) (imbalanceRatio : ℚ) (estimatedSize : ℤ)
  | whale (volume priceImpact : ℚ) (bullish : Bool) (estimatedSize : ℤ)
  | liquidity (buyWall : Bool) (volumeRatio : JsNum) (wallSize : ℤ) (priceLevel : ℚ)
deriving DecidableEq, Repr

/-- `detectVolumeSpike(marketData)` of MarketDataService (the ticker/24h-volume
variant): with fewer than 5 history samples, record and return none; when the
spike ratio reaches the threshold return a finding and leave the history
alone; otherwise record the sample (evicting beyond 20) and return none.
The second component is the updated `this.volumeData` history. -/
def mdDetectVolumeSpikeTicker (threshold : ℚ) (md : TickerState)
    (historicalData : List ℚ) : Option MdFinding × List ℚ :=
  let currentVolume := md.volume24h
  if historicalData.length < 5 then (none, historicalData ++ [currentVolume])
  else
    let avgVolume := historicalData.sum / (historicalData.length : ℚ)
    if (jsDiv currentVolume avgVolume).geQ threshold then
      (some (.volumeSpike currentVolume avgVolume), historicalData)
    else
      let h := historicalData ++ [currentVolume]
      (none, if 20 < h.length then h.tail else h)

/-- The last two elements of a list, oldest of the pair first: the source's
`(klineArray[klineArray.length - 2], klineArray[klineArray.length - 1])`,
with `none` for the `klineArray.length < 2` early return. -/
def lastTwo : List MdKline → Option (MdKline × MdKline)
  | [] => none
  | [_] => none
  | [a, b] => some (a, b)
  | _ :: b :: c :: rest => lastTwo (b :: c :: rest)

/-- `detectPriceBreakout(marketData)` of MarketDataService (the ratio-based
variant reading the last two stored 1m klines): fires iff
`ratio >= threshold || ratio <= 2 - threshold` where
`ratio = currentClose / previousClose`, direction up iff `ratio >= threshold`. -/
def mdDetectPriceBreakout (klineArray : List MdKline) (threshold : ℚ) :
    Option MdFinding :=
  match lastTwo klineArray with
  | none => none
  | some (previousCandle, currentCandle) =>
    let breakoutRatio := jsDiv currentCandle.close previousCandle.close
    if breakoutRatio.geQ threshold || breakoutRatio.leQ (2 - threshold) then
      some (.priceBreakout (if breakoutRatio.geQ threshold then .up else .down)
        previousCandle.close currentCandle.close)
    else none

/-- The three `Math.random()` draws `detectSpoof` can consume in one call
(whether a spoof fires, its side, and its fabricated ratio), each in [0, 1). -/
structure SpoofRandoms where
  fireRoll : ℚ
  sideRoll : ℚ
  ratioRoll : ℚ
deriving DecidableEq, Repr

/-- `detectSpoof(marketData)` of MarketDataService: a mock detector that
fabricates a finding for high-volume symbols with probability 0.1
(`volume > 1000000 && Math.random() < 0.1`), with a random side and a random
imbalance ratio in [2, 7). -/
def detectSpoof (md : TickerState) (r : SpoofRandoms) : Option MdFinding :=
  if 1000000 < md.volume24h ∧ r.fireRoll < 1/10 then
    some (.spoof (if 1/2 < r.sideRoll then .buy else .sell)
      (r.ratioRoll * 5 + 2) ⌊md.volume24h * (1/10)⌋)
  else none

/-- `detectWhaleActivity(marketData)`: fires iff `volume24h > 5000000` and
`|change24h| > 3`, bullish iff the signed change is positive. -/
def detectWhaleActivity (md : TickerState) : Option MdFinding :=
  if 5000000 < md.volume24h ∧ 3 < |md.change24h| then
    some (.whale md.volume24h |md.change24h| (decide (0 < md.change24h))
      ⌊md.volume24h * (15/100)⌋)
  else none

/-- The last element of a list (`l[l.length - 1]`), with a default for the
empty case the source never reaches. -/
def lastD (d : MdKline) : List MdKline → MdKline
  | [] => d
  | [a] => a
  | _ :: b :: rest => lastD d (b :: rest)

/-- `detectLiquidityImbalance(marketData)`: needs at least 5 stored 1m
klines; fires iff the last candle's volume exceeds 3 times the average of
the last 5 candles' volumes. -/
def detectLiquidityImbalance (md : TickerState) (klineArray : List MdKline) :
    Option MdFinding :=
  if klineArray.length < 5 then none
  else
    let recentCandles := klineArray.drop (klineArray.length - 5)
    let avgVolume := ((recentCandles.map (·.volume)).sum) / 5
    let lastCandle := lastD default recentCandles
    if avgVolume * 3 < lastCandle.volume then
      some (.liquidity (decide (lastCandle.openPrice < lastCandle.close))
        (jsDiv lastCandle.volume avgVolume)
        ⌊lastCandle.volume * md.price⌋ lastCandle.close)
    else none

/-- One entry of the `signals` array assembled by `checkForSignals`. -/
structure SignalEntry where
  type : String
  data : MdFinding
  confidence : ℚ
deriving DecidableEq, Repr

/-- The findings pass of MarketDataService's `checkForSignals(marketData)`:
each detector runs when its filter is enabled (the numeric thresholds gate by
JavaScript truthiness, so 0 disables), and each non-null result is pushed
with its fixed confidence. -/
def checkForSignalsList (f : MdFilters) (md : TickerState) (volHist : List ℚ)
    (klineArray : List MdKline) (r : SpoofRandoms) : List SignalEntry :=
  (if f.volumeSpike ≠ 0 then
    match (mdDetectVolumeSpikeTicker f.volumeSpike md volHist).1 with
    | some d => [⟨"volume_spike", d, 7/10⟩]
    | none => []
  else []) ++
  (if f.priceBreakout ≠ 0 then
    match mdDetectPriceBreakout klineArray f.priceBreakout with
    | some d => [⟨"price_breakout", d, 8/10⟩]
    | none => []
  else []) ++
  (if f.spoofDetection then
    match detectSpoof md r with
    | some d => [⟨"spoof_detection", d, 6/10⟩]
    | none => []
  else []) ++
  (if f.whaleAlerts then
    match detectWhaleActivity md with
    | some d => [⟨"whale_alert", d, 9/10⟩]
    | none => []
  else []) ++
  (if f.liquidityImbalance then
    match detectLiquidityImbalance md klineArray with
    | some d => [⟨"liquidity_imbalance", d, 5/10⟩]
    | none => []
  else [])

/-- The aggregate event emitted by `checkForSignals`. -/
structure SignalsEvent where
  symbol : String
  signals : List SignalEntry
  timestamp : ℤ
  price : ℚ
  volume : ℚ
  change : ℚ
deriving DecidableEq, Repr

/-- MarketDataService's `checkForSignals`: emits a "signals" event whenever
the findings list is nonempty.  `now` is `Date.now()` at the evaluation;
the source consults no last-alert state on this path. -/
def checkForSignalsEvent (f : MdFilters) (md : TickerState) (volHist : List ℚ)
    (klineArray : List MdKline) (r : SpoofRandoms) (now : ℤ) :
    Option SignalsEvent :=
  let signals := checkForSignalsList f md volHist klineArray r
  if 0 < signals.length then
    some ⟨md.symbol, signals, now, md.price, md.volume24h, md.change24h⟩
  else none

/-! ## marketScanner.js: alert gating and command processing -/

/-- `scannerState.filters` of src/marketScanner.js. -/
structure ScannerFilters where
  volumeSpikeThreshold : ℚ
  priceBreakoutThreshold : ℚ
  spoofDetectionEnabled : Bool
  whaleAlertsEnabled : Bool
  liquidityWallsEnabled : Bool
deriving DecidableEq, Repr

/-- The initial `scannerState.filters` values. -/
def defaultScannerFilters : ScannerFilters := ⟨105/100, 1002/1000, true, true, true⟩

/-- The per-symbol analysis flags `checkForAlerts` reads. -/
structure SymbolAnalysis where
  volumeSpike : Bool
  priceBreakoutIsBreakout : Bool
  orderBookIsImbalanced : Bool
  liquidityHasWalls : Bool
deriving DecidableEq, Repr

/-- The `shouldAlert` disjunction of `checkForAlerts`. -/
def scannerShouldAlert (filters : ScannerFilters) (analysis : SymbolAnalysis) : Bool :=
  (decide (0 < filters.volumeSpikeThreshold) && analysis.volumeSpike)
  || analysis.priceBreakoutIsBreakout
  || (filters.spoofDetectionEnabled && analysis.orderBookIsImbalanced)
  || (filters.liquidityWallsEnabled && analysis.liquidityHasWalls)

/-- src/marketScanner.js `checkForAlerts(symbol)` for one symbol: no alert
without kline data or within 60000 ms of the last alert; otherwise alert iff
some enabled analysis flag is set, updating `lastAlertTime` to `now` on
alert.  Returns (alert emitted, new `lastAlertTime`). -/
def checkForAlerts (filters : ScannerFilters) (analysis : SymbolAnalysis)
    (hasKlineData : Bool) (lastAlertTime now : ℤ) : Bool × ℤ :=
  if !hasKlineData then (false, lastAlertTime)
  else if now - lastAlertTime < 60000 then (false, lastAlertTime)
  else if scannerShouldAlert filters analysis then (true, now)
  else (false, lastAlertTime)

/-- The `breakout X` branch of src/marketScanner.js `processCommand`:
`parseFloat` giving NaN is modelled by `none`.  The update is applied only
when `threshold > 1`; otherwise an error message is printed (second
component true) and the filters are untouched. -/
def processBreakoutCommand (filters : ScannerFilters) (arg : Option ℚ) :
    ScannerFilters × Bool :=
  match arg with
  | some t =>
    if 1 < t then ({ filters with priceBreakoutThreshold := t }, false)
    else (filters, true)
  | none => (filters, true)

/-- The `volume X` branch of `processCommand`: applied only when
`threshold > 0`, otherwise rejected with an error message. -/
def processVolumeCommand (filters : ScannerFilters) (arg : Option ℚ) :
    ScannerFilters × Bool :=
  match arg with
  | some t =>
    if 0 < t then ({ filters with volumeSpikeThreshold := t }, false)
    else (filters, true)
  | none => (filters, true)

/-- A partial update as passed to MarketDataService's `updateFilters`;
absent keys leave the old value in place (object spread). -/
structure MdFiltersUpdate where
  volumeSpike : Option ℚ
  priceBreakout : Option ℚ
  spoofDetection : Option Bool
  whaleAlerts : Option Bool
  liquidityImbalance : Option Bool
deriving DecidableEq, Repr

/-- src/services/MarketDataService.js `updateFilters(newFilters)`:
`this.scannerFilters = { ...this.scannerFilters, ...newFilters }` — a plain
merge with no validation of any value. -/
def mdUpdateFilters (f : MdFilters) (u : MdFiltersUpdate) : MdFilters :=
  ⟨u.volumeSpike.getD f.volumeSpike,
   u.priceBreakout.getD f.priceBreakout,
   u.spoofDetection.getD f.spoofDetection,
   u.whaleAlerts.getD f.whaleAlerts,
   u.liquidityImbalance.getD f.liquidityImbalance⟩

/-! ## WebSocketService / SocketIOService: subscriptions and broadcast

A JavaScript `Set` of channel names is modelled as an insertion-ordered
duplicate-free list: `add` appends only when absent, `delete` removes the
(unique) occurrence. -/

/-- `Set.add`: append the channel unless already present. -/
def setAdd (s : List String) (c : String) : List String :=
  if c ∈ s then s else s ++ [c]

/-- `Set.delete`: remove the channel's occurrence (no-op when absent). -/
def setDelete (s : List String) (c : String) : List String := s.erase c

/-- WebSocketService `handleSubscription(ws, data)`: create the subscription
set when the client has none yet (`none`), then add each requested channel. -/
def wsHandleSubscription (subscriptions : Option (List String))
    (channels : List String) : Option (List String) :=
  some (channels.foldl setAdd (subscriptions.getD []))

/-- WebSocketService `handleUnsubscription(ws, data)`: delete each requested
channel, but only if the client has a subscription set at all
(`if (ws.subscriptions)`); never an error. -/
def wsHandleUnsubscription (subscriptions : Option (List String))
    (channels : List String) : Option (List String) :=
  match subscriptions with
  | none => none
  | some s => some (channels.foldl setDelete s)

/-- SocketIOService `handleSubscription(socket, data)`: an unknown consumer
id is a silent no-op (`if (!client) return`); a known consumer's set (always
created on connect) gets each channel added. -/
def sioHandleSubscription (client : Option (List String))
    (channels : List String) : Option (List String) :=
  match client with
  | none => none
  | some s => some (channels.foldl setAdd s)

/-- SocketIOService `handleUnsubscription(socket, data)`: an unknown consumer
id is a silent no-op; otherwise each channel is deleted from the set. -/
def sioHandleUnsubscription (client : Option (List String))
    (channels : List String) : Option (List String) :=
  match client with
  | none => none
  | some s => some (channels.foldl setDelete s)

/-- A connected client as `WebSocketService.broadcast` sees it:
`isOpen` models `readyState === WebSocket.OPEN`, and `subscriptions = none`
models a client that never sent a subscribe message (`ws.subscriptions` is
undefined). -/
structure WsClient where
  isOpen : Bool
  subscriptions : Option (List String)
deriving DecidableEq, Repr

/-- The delivery condition of `WebSocketService.broadcast(type, data, channel)`
for one client: open, and `!channel || !client.subscriptions ||
client.subscriptions.has(channel)`. -/
def wsClientReceives (client : WsClient) (channel : Option String) : Bool :=
  if client.isOpen then
    match channel with
    | none => true
    | some ch =>
      match client.subscriptions with
      | none => true
      | some subs => decide (ch ∈ subs)
  else false

/-- The set of clients a broadcast on `channel` is sent to. -/
def wsBroadcastRecipients (clients : List WsClient) (channel : Option String) :
    List WsClient :=
  clients.filter (fun c => wsClientReceives c channel)

/-! ## SignalService: confidence and signal generation -/

/-- src/services/SignalService.js `calculateConfidence(marketData,
signalTypes)`: a base of 30 plus per-type and market-condition boosts,
clamped by `Math.min(95, Math.max(50, Math.round(...)))` (the base is an
integer, so `Math.round` is the identity). -/
def calculateConfidence (md : TickerState) (signalTypes : List String) : ℤ :=
  let c0 : ℤ := 30
  let c1 := if signalTypes.contains "volumeSpike"
      || signalTypes.contains "volume_spike" then c0 + 15 else c0
  let c2 := if signalTypes.contains "priceBreakout"
      || signalTypes.contains "price_breakout" then c1 + 20 else c1
  let c3 := if signalTypes.contains "whaleAlert"
      || signalTypes.contains "whale_alert" then c2 + 10 else c2
  let c4 := if signalTypes.contains "spoofDetection"
      || signalTypes.contains "spoof_detection" then c3 + 12 else c3
  let c5 := if signalTypes.contains "liquidityImbalance"
      || signalTypes.contains "liquidity_imbalance" then c4 + 8 else c4
  let c6 := if signalTypes.contains "basic_activity" then c5 + 5 else c5
  let c7 := if 2 < signalTypes.length then c6 + 10 else c6
  let c8 := if 5 < |md.change24h| then c7 + 5 else c7
  let c9 := if 100000000 < md.volume24h then c8 + 5 else c8
  min 95 (max 50 c9)

/-- The fields of a generated signal that the confidence gate concerns.
The id, leverage, timestamp and the price levels (entry and TP/SL, which go
through `toFixed(2)` decimal formatting) are bookkeeping independent of the
gate and are not modelled. -/
structure GeneratedSignal where
  symbol : String
  direction : String
  confidence : ℤ
deriving DecidableEq, Repr

/-- src/services/SignalService.js `generateSignal(marketData, signalTypes)`:
null unless generation is running and the symbol is selected (or no coins
are selected); then the minimum-confidence rejection branch
(`confidence < this.settings.minConfidence`) returns null, otherwise a
signal whose direction is LONG iff `change24h > 0`. -/
def generateSignal (isGenerating : Bool) (selectedCoins : List String)
    (minConfidence : ℤ) (md : TickerState) (signalTypes : List String) :
    Option GeneratedSignal :=
  if !isGenerating then none
  else if 0 < selectedCoins.length ∧ ¬ selectedCoins.contains md.symbol then none
  else if calculateConfidence md signalTypes < minConfidence then none
  else some ⟨md.symbol, if 0 < md.change24h then "LONG" else "SHORT",
    calculateConfidence md signalTypes⟩

/-- The default `settings.minConfidence` of SignalService. -/
def defaultMinConfidence : ℤ := 10

/-! ## Concrete fixtures used by the theorems -/

/-- A candle whose only populated field is its volume. -/
def volCandle (v : ℚ) : ScannerCandle := ⟨0, 0, 0, 0, 0, v⟩

/-- The spec's volume example `[100, 50, 50, 50, 50]` (current candle first). -/
def exVol100 : List ScannerCandle :=
  [volCandle 100, volCandle 50, volCandle 50, volCandle 50, volCandle 50]

/-- The spec's volume example `[55, 50, 50, 50, 50]` (current candle first). -/
def exVol55 : List ScannerCandle :=
  [volCandle 55, volCandle 50, volCandle 50, volCandle 50, volCandle 50]

/-- A candle whose only populated field is its close. -/
def closeCandle (c : ℚ) : ScannerCandle := ⟨0, 0, 0, 0, c, 0⟩

/-- The spec's breakout example: closes `[101, 100]` (current first). -/
def exClosesUp : List ScannerCandle := [closeCandle 101, closeCandle 100]

/-- The spec's breakdown example: closes `[100, 101]` (current first). -/
def exClosesDown : List ScannerCandle := [closeCandle 100, closeCandle 101]

/-- A stored kline whose only populated fields are timestamp and close. -/
def mdKlineClose (ts : ℤ) (c : ℚ) : MdKline := ⟨ts, 0, 0, 0, c, 0⟩

/-! ## C2: volume spike detector -/

/-- C2 (amended): the MarketDataService candle detector
`mdDetectVolumeSpike`, on any list of at least 2 candles, reports a spike
iff the current volume exceeds the previous-candle average times the
threshold (with the average-zero case collapsing to `currentVol > 0`),
returns none below 2 candles, and validates both spec examples; the
marketScanner variant however returns none for any list of fewer than 10
candles and only applies the same rule from 10 candles up. -/
theorem detectVolumeSpike_characterization (candles : List ScannerCandle)
    (t : ℚ) (h2 : 2 ≤ candles.length) :
    (mdDetectVolumeSpike candles t
      = decide (avgPrevVol candles * t < currentVol candles))
    ∧ (avgPrevVol candles = 0 →
        mdDetectVolumeSpike candles t = decide (0 < currentVol candles))
    ∧ (∀ cs : List ScannerCandle, cs.length < 2 → mdDetectVolumeSpike cs t = false)
    ∧ (mdDetectVolumeSpike exVol100 (12/10) = true)
    ∧ (mdDetectVolumeSpike exVol55 (12/10) = false)
    ∧ (∀ cs : List ScannerCandle, cs.length < 10 →
        scannerDetectVolumeSpike cs t = false)
    ∧ (∀ cs : List ScannerCandle, 10 ≤ cs.length →
        scannerDetectVolumeSpike cs t
          = decide (avgPrevVol cs * t < currentVol cs)) := by
  have hlen : ¬ candles.length < 2 := by omega
  have hpl : ¬ (prevVols candles).length = 0 := by
    simp only [prevVols, List.length_map, List.length_tail]
    omega
  refine ⟨?_, ?_, ?_, ?_, ?_, ?_, ?_⟩
  · unfold mdDetectVolumeSpike
    rw [if_neg hlen, if_neg hpl]
    by_cases h0 : avgPrevVol candles = 0
    · rw [if_pos h0, h0, zero_mul]
    · rw [if_neg h0]
  · intro h0
    unfold mdDetectVolumeSpike
    rw [if_neg hlen, if_neg hpl, if_pos h0]
  · intro cs hcs
    unfold mdDetectVolumeSpike
    rw [if_pos hcs]
  · norm_num [mdDetectVolumeSpike, exVol100, volCandle, avgPrevVol, prevVols,
      currentVol]
  · norm_num [mdDetectVolumeSpike, exVol55, volCandle, avgPrevVol, prevVols,
      currentVol]
  · intro cs hcs
    unfold scannerDetectVolumeSpike
    rw [if_pos hcs]
  · intro cs hcs
    unfold scannerDetectVolumeSpike
    rw [if_neg (by omega)]

/-- C2 witness: the characterization applied to the 5-candle spec example. -/
theorem detectVolumeSpike_characterization_witness :
    (2 ≤ exVol100.length)
    ∧ (mdDetectVolumeSpike exVol100 (12/10)
        = decide (avgPrevVol exVol100 * (12/10) < currentVol exVol100)) :=
  ⟨by norm_num [exVol100],
   (detectVolumeSpike_characterization exVol100 (12/10)
     (by norm_num [exVol100])).1⟩

/-- C2 counterexample: on the spec's own example (volumes
`[100, 50, 50, 50, 50]`, threshold 1.2), the marketScanner
`detectVolumeSpike` reports false, not the claimed true, because it
requires at least 10 candles. -/
theorem scanner_volume_spike_example_false :
    scannerDetectVolumeSpike exVol100 (12/10) = false := by
  norm_num [scannerDetectVolumeSpike, exVol100, volCandle]

/-! ## C3: price breakout detector -/

/-- C3 (amended): for every candle list with at least 2 candles, threshold
above 1 and a nonnegative previous close, marketScanner's
`detectPriceBreakout` reports up iff `currentClose > previousClose *
threshold`, down iff `currentClose < previousClose / threshold`, and none
otherwise (in particular for equal closes and for fewer than 2 candles),
validating both spec examples; MarketDataService's ratio-based variant
instead fires on `currentClose / previousClose >= threshold` (up) or
`<= 2 - threshold` (down). -/
theorem detectPriceBreakout_characterization (candles : List ScannerCandle)
    (t : ℚ) (h2 : 2 ≤ candles.length) (ht : 1 < t)
    (hp : 0 ≤ prevClose candles) :
    ((scannerDetectPriceBreakout candles t).direction = some .up ↔
      prevClose candles * t < curClose candles)
    ∧ ((scannerDetectPriceBreakout candles t).direction = some .down ↔
      curClose candles < prevClose candles / t)
    ∧ ((scannerDetectPriceBreakout candles t).isBreakout = false ↔
      (scannerDetectPriceBreakout candles t).direction = none)
    ∧ (curClose candles = prevClose candles →
      (scannerDetectPriceBreakout candles t).direction = none)
    ∧ (∀ cs : List ScannerCandle, cs.length < 2 →
      scannerDetectPriceBreakout cs t = ⟨false, none⟩)
    ∧ (scannerDetectPriceBreakout exClosesUp (1005/1000) = ⟨true, some .up⟩)
    ∧ (scannerDetectPriceBreakout exClosesDown (1005/1000) = ⟨true, some .down⟩)
    ∧ (∀ (kl : List MdKline) (p c : MdKline), lastTwo kl = some (p, c) →
      p.close ≠ 0 →
      mdDetectPriceBreakout kl t =
        if t ≤ c.close / p.close then
          some (.priceBreakout .up p.close c.close)
        else if c.close / p.close ≤ 2 - t then
          some (.priceBreakout .down p.close c.close)
        else none) := by
  have hlen : ¬ candles.length < 2 := by omega
  have hdivle : prevClose candles / t ≤ prevClose candles * t := by
    calc prevClose candles / t ≤ prevClose candles :=
          div_le_self hp ht.le
      _ ≤ prevClose candles * t := le_mul_of_one_le_right hp ht.le
  refine ⟨?_, ?_, ?_, ?_, ?_, ?_, ?_, ?_⟩
  · unfold scannerDetectPriceBreakout
    rw [if_neg hlen]
    by_cases hup : prevClose candles * t < curClose candles
    · rw [if_pos hup]
      simp [hup]
    · rw [if_neg hup]
      by_cases hdown : curClose candles < prevClose candles / t
      · rw [if_pos hdown]
        simp [hup]
      · rw [if_neg hdown]
        simp [hup]
  · unfold scannerDetectPriceBreakout
    rw [if_neg hlen]
    by_cases hup : prevClose candles * t < curClose candles
    · rw [if_pos hup]
      simp only [Option.some.injEq, reduceCtorEq, false_iff, not_lt]
      exact le_trans hdivle hup.le
    · rw [if_neg hup]
      by_cases hdown : curClose candles < prevClose candles / t
      · rw [if_pos hdown]
        simp [hdown]
      · rw [if_neg hdown]
        simp [hdown]
  · unfold scannerDetectPriceBreakout
    rw [if_neg hlen]
    split_ifs <;> simp
  · intro he
    unfold scannerDetectPriceBreakout
    rw [if_neg hlen]
    have h1 : ¬ prevClose candles * t < curClose candles := by
      rw [he]
      exact not_lt.mpr (le_mul_of_one_le_right hp ht.le)
    have h2q : ¬ curClose candles < prevClose candles / t := by
      rw [he]
      exact not_lt.mpr (div_le_self hp ht.le)
    rw [if_neg h1, if_neg h2q]
  · intro cs hcs
    unfold scannerDetectPriceBreakout
    rw [if_pos hcs]
  · norm_num [scannerDetectPriceBreakout, exClosesUp, closeCandle, curClose,
      prevClose]
  · norm_num [scannerDetectPriceBreakout, exClosesDown, closeCandle, curClose,
      prevClose]
  · intro kl p c hlt hp0
    unfold mdDetectPriceBreakout
    rw [hlt]
    simp only [jsDiv, ne_eq, hp0, not_false_eq_true, if_true, JsNum.geQ,
      JsNum.leQ]
    by_cases hgt : t ≤ c.close / p.close
    · simp [hgt]
    · by_cases hle : c.close / p.close ≤ 2 - t
      · simp [hgt, hle]
      · simp [hgt, hle]

/-- C3 witness: the characterization applied to the spec's `[101, 100]`
example with threshold 1.005. -/
theorem detectPriceBreakout_characterization_witness :
    (2 ≤ exClosesUp.length) ∧ (1 < (1005/1000 : ℚ))
    ∧ (0 ≤ prevClose exClosesUp)
    ∧ ((scannerDetectPriceBreakout exClosesUp (1005/1000)).direction
        = some .up ↔
      prevClose exClosesUp * (1005/1000) < curClose exClosesUp) :=
  ⟨by norm_num [exClosesUp], by norm_num,
   by norm_num [exClosesUp, prevClose, closeCandle],
   (detectPriceBreakout_characterization exClosesUp (1005/1000)
     (by norm_num [exClosesUp]) (by norm_num)
     (by norm_num [exClosesUp, prevClose, closeCandle])).1⟩

/-- C3 counterexample: with stored closes 200 then 201 and threshold 1.005,
MarketDataService's `detectPriceBreakout` reports direction up even though
the claimed up-condition `currentClose > previousClose * threshold` is false
(201 is not greater than 201) and the claimed down-condition is false too,
so the claim (which then requires none) fails on this variant. -/
theorem md_price_breakout_boundary :
    mdDetectPriceBreakout [mdKlineClose 0 200, mdKlineClose 1 201] (1005/1000)
      = some (.priceBreakout .up 200 201)
    ∧ ¬ ((200 : ℚ) * (1005/1000) < 201)
    ∧ ¬ ((201 : ℚ) < 200 / (1005/1000)) := by
  norm_num [mdDetectPriceBreakout, lastTwo, mdKlineClose, jsDiv, JsNum.geQ,
    JsNum.leQ]

/-! ## C4: order-book imbalance detector -/

/-- C4 (amended): with both bid and ask fields present and a nonzero top-10
ask volume, `detectOrderBookImbalance` computes `ratio = sumBid / sumAsk`
and is imbalanced iff `ratio > threshold` or `ratio < 1/threshold`, with
direction buy exactly when `ratio > threshold` (validating the 30-vs-10,
threshold-2 example); an absent bid or ask field gives a non-imbalanced
result, but an empty ask list with positive bid volume is NOT rejected: the
JavaScript division by zero yields ratio Infinity and an imbalanced buy
result. -/
theorem detectOrderBookImbalance_characterization
    (bids asks : List (ℚ × ℚ)) (t : ℚ) (hask : sumTop10 asks ≠ 0) :
    ((detectOrderBookImbalance ⟨some bids, some asks⟩ t).isImbalanced
      = (decide (t < sumTop10 bids / sumTop10 asks)
        || decide (sumTop10 bids / sumTop10 asks < 1 / t)))
    ∧ ((detectOrderBookImbalance ⟨some bids, some asks⟩ t).ratio
      = some (.num (sumTop10 bids / sumTop10 asks)))
    ∧ ((detectOrderBookImbalance ⟨some bids, some asks⟩ t).direction
        = some .buy ↔ t < sumTop10 bids / sumTop10 asks)
    ∧ (∀ ob : OrderBook, ob.b = none ∨ ob.a = none →
      detectOrderBookImbalance ob t = ⟨false, none, none⟩)
    ∧ (∀ bids2 : List (ℚ × ℚ), 0 < sumTop10 bids2 →
      detectOrderBookImbalance ⟨some bids2, some []⟩ t
        = ⟨true, some .buy, some .posInf⟩)
    ∧ (detectOrderBookImbalance ⟨some [(100, 30)], some [(101, 10)]⟩ 2
      = ⟨true, some .buy, some (.num 3)⟩) := by
  refine ⟨?_, ?_, ?_, ?_, ?_, ?_⟩
  · simp [detectOrderBookImbalance, jsDiv, hask, JsNum.gtQ, JsNum.ltQ]
  · simp [detectOrderBookImbalance, jsDiv, hask]
  · simp only [detectOrderBookImbalance, jsDiv, ne_eq, hask,
      not_false_eq_true, if_true, JsNum.gtQ, JsNum.ltQ]
    by_cases hgt : t < sumTop10 bids / sumTop10 asks
    · simp [hgt]
    · by_cases hlt : sumTop10 bids / sumTop10 asks < 1 / t
      · simp [hgt, hlt]
      · simp [hgt, hlt]
  · intro ob hob
    rcases ob with ⟨b, a⟩
    rcases hob with hb | ha
    · simp only at hb
      subst hb
      rfl
    · simp only at ha
      subst ha
      rcases b with _ | bl <;> rfl
  · intro bids2 hb2
    have h0 : sumTop10 ([] : List (ℚ × ℚ)) = 0 := rfl
    have hj : jsDiv (sumTop10 bids2) (sumTop10 ([] : List (ℚ × ℚ)))
        = JsNum.posInf := by
      unfold jsDiv
      rw [h0]
      rw [if_neg (by simp), if_pos hb2]
    have hshape : detectOrderBookImbalance ⟨some bids2, some []⟩ t =
        ⟨(jsDiv (sumTop10 bids2) (sumTop10 [])).gtQ t
          || (jsDiv (sumTop10 bids2) (sumTop10 [])).ltQ (1 / t),
         if (jsDiv (sumTop10 bids2) (sumTop10 [])).gtQ t then some .buy
         else if (jsDiv (sumTop10 bids2) (sumTop10 [])).ltQ (1 / t) then
           some .sell
         else none,
         some (jsDiv (sumTop10 bids2) (sumTop10 []))⟩ := rfl
    rw [hshape, hj]
    simp [JsNum.gtQ, JsNum.ltQ]
  · norm_num [detectOrderBookImbalance, sumTop10, jsDiv, JsNum.gtQ,
      JsNum.ltQ]

/-- C4 witness: the characterization applied to the spec's 30-vs-10 book
with threshold 2. -/
theorem detectOrderBookImbalance_characterization_witness :
    (sumTop10 [((101 : ℚ), (10 : ℚ))] ≠ 0)
    ∧ ((detectOrderBookImbalance ⟨some [(100, 30)], some [(101, 10)]⟩ 2).ratio
      = some (.num (sumTop10 [((100 : ℚ), (30 : ℚ))]
          / sumTop10 [((101 : ℚ), (10 : ℚ))]))) :=
  ⟨by norm_num [sumTop10],
   (detectOrderBookImbalance_characterization [(100, 30)] [(101, 10)] 2
     (by norm_num [sumTop10])).2.1⟩

/-- C4 counterexample: a book whose ask side is the empty list (bid volume
30) is not mapped to none as the claim requires; the zero-denominator
division produces ratio Infinity and an imbalanced buy result. -/
theorem orderbook_empty_ask_not_none :
    (detectOrderBookImbalance ⟨some [(100, 30)], some []⟩ 2).isImbalanced
      = true
    ∧ (detectOrderBookImbalance ⟨some [(100, 30)], some []⟩ 2).ratio
      = some .posInf
    ∧ (detectOrderBookImbalance ⟨some [(100, 30)], some []⟩ 2).direction
      = some .buy := by
  norm_num [detectOrderBookImbalance, sumTop10, jsDiv, JsNum.gtQ, JsNum.ltQ]

/-! ## C1: alert rate limiting -/

/-- C1 (amended): marketScanner's `checkForAlerts` satisfies the claim with
the hardcoded 60000 ms window: an alert is emitted only when at least
60000 ms have passed since `lastAlertTime`, an emit sets `lastAlertTime` to
`now` and a non-emit leaves it unchanged, so a second alert-worthy
evaluation within 60000 ms of an emitted one emits nothing — exactly one
alert for the pair.  (MarketDataService's `checkForSignals` event path has
no such gate; see the counterexample.) -/
theorem alert_rate_limit_once (filters : ScannerFilters)
    (analysis : SymbolAnalysis) (hasK : Bool) (last now1 now2 : ℤ)
    (h1 : (checkForAlerts filters analysis hasK last now1).1 = true)
    (h2 : now2 - now1 < 60000) :
    60000 ≤ now1 - last
    ∧ (checkForAlerts filters analysis hasK last now1).2 = now1
    ∧ (checkForAlerts filters analysis hasK
        (checkForAlerts filters analysis hasK last now1).2 now2).1 = false
    ∧ (∀ l n : ℤ, (checkForAlerts filters analysis hasK l n).1 = false →
        (checkForAlerts filters analysis hasK l n).2 = l) := by
  unfold checkForAlerts at h1 ⊢
  rcases hasK with _ | _
  · simp at h1
  · simp only [Bool.not_true, Bool.false_eq_true, if_false] at h1 ⊢
    by_cases hw : now1 - last < 60000
    · rw [if_pos hw] at h1
      simp at h1
    · rw [if_neg hw] at h1 ⊢
      by_cases hs : scannerShouldAlert filters analysis = true
      · rw [if_pos hs] at h1 ⊢
        refine ⟨by omega, rfl, ?_, ?_⟩
        · simp only
          rw [if_pos h2]
        · intro l n hln
          by_cases hw2 : n - l < 60000
          · rw [if_pos hw2] at hln ⊢
          · rw [if_neg hw2] at hln ⊢
            rw [if_pos hs] at hln ⊢
            simp at hln
      · rw [if_neg hs] at h1
        simp at h1

/-- C1 witness: a first alert at t = 60000 after a last alert at 0, then a
second evaluation 500 ms later that is suppressed. -/
theorem alert_rate_limit_once_witness :
    ((checkForAlerts defaultScannerFilters ⟨false, true, false, false⟩ true
      0 60000).1 = true)
    ∧ (60000 ≤ (60000 : ℤ) - 0
      ∧ (checkForAlerts defaultScannerFilters ⟨false, true, false, false⟩ true
          0 60000).2 = 60000
      ∧ (checkForAlerts defaultScannerFilters ⟨false, true, false, false⟩ true
          ((checkForAlerts defaultScannerFilters ⟨false, true, false, false⟩
            true 0 60000).2) 60500).1 = false
      ∧ (∀ l n : ℤ,
          (checkForAlerts defaultScannerFilters ⟨false, true, false, false⟩
            true l n).1 = false →
          (checkForAlerts defaultScannerFilters ⟨false, true, false, false⟩
            true l n).2 = l)) :=
  ⟨by norm_num [checkForAlerts, scannerShouldAlert, defaultScannerFilters],
   alert_rate_limit_once defaultScannerFilters ⟨false, true, false, false⟩
     true 0 60000 60500
     (by norm_num [checkForAlerts, scannerShouldAlert, defaultScannerFilters])
     (by norm_num)⟩

/-- The market data of the C1 counterexample: a symbol whose 24h volume and
change make `detectWhaleActivity` fire on every evaluation. -/
def cexWhaleTicker : TickerState := ⟨"BTCUSDT", 100, 4, 6000000, 0⟩

/-- A random draw on which `detectSpoof` does not fire. -/
def cexQuietRoll : SpoofRandoms := ⟨1/2, 1/2, 1/2⟩

/-- C1 counterexample: MarketDataService's `checkForSignals` emits a
"signals" event on every evaluation with nonempty findings — two
evaluations 1000 ms apart (well inside the 60000 ms window) each emit an
event, i.e. two events rather than the claimed exactly one; the emit
decision consults no `lastAlertAt` state at all. -/
theorem checkForSignals_double_emit :
    ((checkForSignalsEvent defaultMdFilters cexWhaleTicker [] [] cexQuietRoll
      0).isSome = true)
    ∧ ((checkForSignalsEvent defaultMdFilters cexWhaleTicker [] [] cexQuietRoll
      1000).isSome = true)
    ∧ ((1000 : ℤ) - 0 < 60000) := by
  norm_num [checkForSignalsEvent, checkForSignalsList, defaultMdFilters,
    cexWhaleTicker, cexQuietRoll, mdDetectVolumeSpikeTicker,
    mdDetectPriceBreakout, lastTwo, detectSpoof, detectWhaleActivity,
    detectLiquidityImbalance, jsDiv, JsNum.geQ]

/-! ## C5: determinism of the detection pass -/

/-- C5 (amended): with spoof detection disabled, MarketDataService's
detection pass is deterministic — two runs of `checkForSignals` on
identical market data, volume history and candle inputs produce identical
findings whatever the random draws are; the enabled-by-default `detectSpoof`
however consumes fresh `Math.random()` draws, so the full default pass is
not a function of the market inputs (see the counterexample). -/
theorem checkForSignals_deterministic_without_spoof (f : MdFilters)
    (md : TickerState) (volHist : List ℚ) (klineArray : List MdKline)
    (r r2 : SpoofRandoms) (h : f.spoofDetection = false) :
    checkForSignalsList f md volHist klineArray r
      = checkForSignalsList f md volHist klineArray r2 := by
  simp [checkForSignalsList, h]

/-- C5 witness: the determinism theorem applied to the whale-alert ticker
with spoof detection off and two very different random draws. -/
theorem checkForSignals_deterministic_witness :
    checkForSignalsList ⟨12/10, 101/100, false, true, true⟩ cexWhaleTicker []
      [] ⟨0, 0, 0⟩
    = checkForSignalsList ⟨12/10, 101/100, false, true, true⟩ cexWhaleTicker
      [] [] ⟨1/2, 1, 1⟩ :=
  checkForSignals_deterministic_without_spoof ⟨12/10, 101/100, false, true,
    true⟩ cexWhaleTicker [] [] ⟨0, 0, 0⟩ ⟨1/2, 1, 1⟩ rfl

/-- The market data of the C5 counterexample: volume high enough for
`detectSpoof` to be eligible but too low for the whale detector. -/
def cexSpoofTicker : TickerState := ⟨"XUSDT", 100, 1, 2000000, 0⟩

/-- C5 counterexample: two runs of the default detection pass on identical
market data, candle and order-book inputs differ — one random draw makes
`detectSpoof` fabricate a finding, the other does not, so the pass depends
on randomness, contradicting the claimed determinism. -/
theorem detectSpoof_random_dependence :
    checkForSignalsList defaultMdFilters cexSpoofTicker [] [] ⟨0, 3/4, 1/2⟩
      ≠ checkForSignalsList defaultMdFilters cexSpoofTicker [] []
        ⟨1/2, 3/4, 1/2⟩ := by
  norm_num [checkForSignalsList, defaultMdFilters, cexSpoofTicker,
    mdDetectVolumeSpikeTicker, mdDetectPriceBreakout, lastTwo, detectSpoof,
    detectWhaleActivity, detectLiquidityImbalance, jsDiv, JsNum.geQ]

/-! ## C6: bounded, sorted kline series -/

theorem length_replaceByTimestamp (l : List MdKline) (k : MdKline) :
    (replaceByTimestamp l k).length = l.length := by
  induction l with
  | nil => rfl
  | cons x xs ih =>
    unfold replaceByTimestamp
    split_ifs <;> simp [ih]

theorem length_handleKlineUpsert (l : List MdKline) (k : MdKline)
    (h : l.length ≤ 100) : (handleKlineUpsert l k).length ≤ 100 := by
  unfold handleKlineUpsert
  split_ifs with h1 h2
  · rw [length_replaceByTimestamp]
    exact h
  · simp only [List.length_tail, List.length_append, List.length_singleton]
    omega
  · simp only [List.length_append, List.length_singleton] at h2 ⊢
    omega

theorem mem_replaceByTimestamp {l : List MdKline} {k x : MdKline}
    (h : x ∈ replaceByTimestamp l k) :
    x ∈ l ∨ (x = k ∧ ∃ z ∈ l, z.timestamp = k.timestamp) := by
  induction l with
  | nil => simp [replaceByTimestamp] at h
  | cons y ys ih =>
    unfold replaceByTimestamp at h
    split_ifs at h with hts
    · rcases List.mem_cons.mp h with h | h
      · exact Or.inr ⟨h, y, List.mem_cons_self y ys, hts⟩
      · exact Or.inl (List.mem_cons_of_mem y h)
    · rcases List.mem_cons.mp h with h | h
      · exact Or.inl (h ▸ List.mem_cons_self y ys)
      · rcases ih h with h | ⟨hx, z, hz, hzt⟩
        · exact Or.inl (List.mem_cons_of_mem y h)
        · exact Or.inr ⟨hx, z, List.mem_cons_of_mem y hz, hzt⟩

theorem pairwise_replaceByTimestamp {l : List MdKline} {k : MdKline}
    (hp : List.Pairwise (fun a b => a.timestamp < b.timestamp) l) :
    List.Pairwise (fun a b => a.timestamp < b.timestamp)
      (replaceByTimestamp l k) := by
  induction l with
  | nil => exact hp
  | cons y ys ih =>
    rw [List.pairwise_cons] at hp
    unfold replaceByTimestamp
    split_ifs with hts
    · rw [List.pairwise_cons]
      exact ⟨fun b hb => hts ▸ hp.1 b hb, hp.2⟩
    · rw [List.pairwise_cons]
      refine ⟨fun b hb => ?_, ih hp.2⟩
      rcases mem_replaceByTimestamp hb with h | ⟨hb2, z, hz, hzt⟩
      · exact hp.1 b h
      · rw [hb2, ← hzt]
        exact hp.1 z hz

theorem mem_handleKlineUpsert {l : List MdKline} {k x : MdKline}
    (h : x ∈ handleKlineUpsert l k) : x ∈ l ∨ x = k := by
  unfold handleKlineUpsert at h
  split_ifs at h with h1 h2
  · exact (mem_replaceByTimestamp h).imp id And.left
  · have hx : x ∈ l ++ [k] := (List.tail_sublist _).subset h
    simpa using hx
  · simpa using h

theorem pairwise_handleKlineUpsert {l : List MdKline} {k : MdKline}
    (hp : List.Pairwise (fun a b => a.timestamp < b.timestamp) l)
    (hb : ∀ x ∈ l, x.timestamp ≤ k.timestamp) :
    List.Pairwise (fun a b => a.timestamp < b.timestamp)
      (handleKlineUpsert l k) := by
  unfold handleKlineUpsert
  split_ifs with h1 h2
  · exact pairwise_replaceByTimestamp hp
  · refine List.Pairwise.sublist (List.tail_sublist _) ?_
    rw [List.pairwise_append]
    refine ⟨hp, List.pairwise_singleton _ _, fun a ha b hbk => ?_⟩
    have hbe : b = k := by simpa using hbk
    subst hbe
    rcases lt_or_eq_of_le (hb a ha) with h | h
    · exact h
    · exfalso
      apply h1
      rw [List.any_eq_true]
      exact ⟨a, ha, by simpa using h⟩
  · rw [List.pairwise_append]
    refine ⟨hp, List.pairwise_singleton _ _, fun a ha b hbk => ?_⟩
    have hbe : b = k := by simpa using hbk
    subst hbe
    rcases lt_or_eq_of_le (hb a ha) with h | h
    · exact h
    · exfalso
      apply h1
      rw [List.any_eq_true]
      exact ⟨a, ha, by simpa using h⟩

theorem foldl_upsert_length (ops : List MdKline) :
    ∀ acc : List MdKline, acc.length ≤ 100 →
      (ops.foldl handleKlineUpsert acc).length ≤ 100 := by
  induction ops with
  | nil =>
    intro acc h
    simpa using h
  | cons o rest ih =>
    intro acc h
    exact ih _ (length_handleKlineUpsert acc o h)

theorem foldl_upsert_pairwise (ops : List MdKline) :
    ∀ (acc : List MdKline) (anchor : MdKline),
      List.Pairwise (fun a b => a.timestamp < b.timestamp) acc →
      (∀ x ∈ acc, x.timestamp ≤ anchor.timestamp) →
      List.Chain (fun a b : MdKline => a.timestamp ≤ b.timestamp) anchor ops →
      List.Pairwise (fun a b => a.timestamp < b.timestamp)
        (ops.foldl handleKlineUpsert acc) := by
  induction ops with
  | nil =>
    intro acc _ hp _ _
    simpa using hp
  | cons o rest ih =>
    intro acc anchor hp hb hc
    rw [List.chain_cons] at hc
    have hb2 : ∀ x ∈ acc, x.timestamp ≤ o.timestamp :=
      fun x hx => le_trans (hb x hx) hc.1
    simp only [List.foldl_cons]
    refine ih (handleKlineUpsert acc o) o
      (pairwise_handleKlineUpsert hp hb2) (fun x hx => ?_) hc.2
    rcases mem_handleKlineUpsert hx with h | h
    · exact hb2 x h
    · rw [h]

/-- C6 (amended): under any sequence of kline ingest operations the stored
series never exceeds the 100-candle capacity; and provided the updates
arrive with nondecreasing open times (in-order delivery, including repeats
of a still-forming bar), the series stays strictly sorted ascending by open
time.  Out-of-order arrival of a new open time breaks sortedness (the code
appends without sort-on-insert; see the counterexample). -/
theorem klineStore_bounded_and_sorted_in_order (ops : List MdKline) :
    (ingestKlines ops).length ≤ 100
    ∧ (List.Chain' (fun a b : MdKline => a.timestamp ≤ b.timestamp) ops →
      List.Pairwise (fun a b => a.timestamp < b.timestamp)
        (ingestKlines ops)) := by
  constructor
  · exact foldl_upsert_length ops [] (by simp)
  · intro hc
    cases ops with
    | nil => simp [ingestKlines]
    | cons o rest =>
      have hstep : handleKlineUpsert [] o = [o] := rfl
      unfold ingestKlines
      rw [List.foldl_cons, hstep]
      refine foldl_upsert_pairwise rest [o] o
        (List.pairwise_singleton _ _) (by simp) ?_
      exact hc

/-- An out-of-order pair of klines: open time 2 arrives before open time 1. -/
def cexKlineLate : MdKline := ⟨2, 0, 0, 0, 0, 5⟩

/-- The kline with the earlier open time, delivered second. -/
def cexKlineEarly : MdKline := ⟨1, 0, 0, 0, 0, 7⟩

/-- C6 witness: the theorem applied to an in-order two-kline sequence. -/
theorem klineStore_bounded_and_sorted_witness :
    (ingestKlines [cexKlineEarly, cexKlineLate]).length ≤ 100
    ∧ List.Pairwise (fun a b => a.timestamp < b.timestamp)
        (ingestKlines [cexKlineEarly, cexKlineLate]) :=
  ⟨(klineStore_bounded_and_sorted_in_order [cexKlineEarly, cexKlineLate]).1,
   (klineStore_bounded_and_sorted_in_order [cexKlineEarly, cexKlineLate]).2
     (by norm_num [List.chain'_cons, cexKlineEarly, cexKlineLate])⟩

/-- C6 counterexample: ingesting open time 2 and then open time 1 leaves
the stored series `[2, 1]`, which is not sorted ascending by open time,
refuting the claim's unconditional sortedness under out-of-order arrival. -/
theorem klineStore_out_of_order_unsorted :
    ¬ List.Pairwise (fun a b : MdKline => a.timestamp ≤ b.timestamp)
      (ingestKlines [cexKlineLate, cexKlineEarly]) := by
  norm_num [ingestKlines, handleKlineUpsert, replaceByTimestamp, cexKlineLate,
    cexKlineEarly, List.foldl]

/-! ## C7: idempotent subscribe / unsubscribe -/

theorem mem_setAdd (s : List String) (c : String) : c ∈ setAdd s c := by
  unfold setAdd
  split_ifs with h
  · exact h
  · simp

theorem setAdd_of_mem {s : List String} {c : String} (h : c ∈ s) :
    setAdd s c = s := if_pos h

/-- C7: for every consumer state and channel, subscribing twice to the same
channel, or unsubscribing twice from the same channel, leaves the
subscription set after the second call equal to the set after the first
call, and unsubscribing from a never-subscribed channel is an errorless
no-op — in both the WebSocketService (where a client may have no set yet)
and the SocketIOService (where an unknown consumer is skipped) variants.
The duplicate-freeness hypothesis holds for every set the services build,
since a JavaScript Set never holds duplicates. -/
theorem subscription_idempotent (s : List String) (c : String)
    (hnd : s.Nodup) :
    (wsHandleSubscription (wsHandleSubscription (some s) [c]) [c]
      = wsHandleSubscription (some s) [c])
    ∧ (wsHandleSubscription (wsHandleSubscription none [c]) [c]
      = wsHandleSubscription none [c])
    ∧ (wsHandleUnsubscription (wsHandleUnsubscription (some s) [c]) [c]
      = wsHandleUnsubscription (some s) [c])
    ∧ (wsHandleUnsubscription (wsHandleUnsubscription none [c]) [c]
      = wsHandleUnsubscription none [c])
    ∧ (c ∉ s → wsHandleUnsubscription (some s) [c] = some s)
    ∧ (sioHandleSubscription (sioHandleSubscription (some s) [c]) [c]
      = sioHandleSubscription (some s) [c])
    ∧ (sioHandleUnsubscription (sioHandleUnsubscription (some s) [c]) [c]
      = sioHandleUnsubscription (some s) [c])
    ∧ (c ∉ s → sioHandleUnsubscription (some s) [c] = some s)
    ∧ (sioHandleSubscription none [c] = none
      ∧ sioHandleUnsubscription none [c] = none) := by
  have herase : (s.erase c).erase c = s.erase c := by
    apply List.erase_of_not_mem
    intro hmem
    exact ((List.Nodup.mem_erase_iff hnd).mp hmem).1 rfl
  refine ⟨?_, ?_, ?_, ?_, ?_, ?_, ?_, ?_, ?_, ?_⟩
  · simp [wsHandleSubscription, setAdd_of_mem (mem_setAdd s c)]
  · simp [wsHandleSubscription, setAdd_of_mem (mem_setAdd [] c)]
  · simp [wsHandleUnsubscription, setDelete, herase]
  · rfl
  · intro hn
    simp [wsHandleUnsubscription, setDelete, List.erase_of_not_mem hn]
  · simp [sioHandleSubscription, setAdd_of_mem (mem_setAdd s c)]
  · simp [sioHandleUnsubscription, setDelete, herase]
  · intro hn
    simp [sioHandleUnsubscription, setDelete, List.erase_of_not_mem hn]
  · rfl
  · rfl

/-- C7 witness: the idempotence laws at a concrete duplicate-free set. -/
theorem subscription_idempotent_witness :
    (wsHandleSubscription
        (wsHandleSubscription (some ["signals"]) ["market"]) ["market"]
      = wsHandleSubscription (some ["signals"]) ["market"])
    ∧ (["signals"] : List String).Nodup :=
  ⟨(subscription_idempotent ["signals"] "market" (by simp)).1, by simp⟩

/-! ## C8: threshold validation at the update boundary -/

/-- C8 (amended): the marketScanner command boundary does validate — a
`breakout X` command with X ≤ 1 (or an unparsable X) is rejected with an
error message and the previously active filters stay entirely unchanged,
while a valid X > 1 updates only the breakout threshold, and `volume X`
behaves the same with the X > 0 constraint; MarketDataService's
`updateFilters`, however, applies any supplied value without validation
(see the counterexample). -/
theorem breakout_command_validation (filters : ScannerFilters) (t : ℚ)
    (h : ¬ 1 < t) :
    (processBreakoutCommand filters (some t) = (filters, true))
    ∧ (processBreakoutCommand filters none = (filters, true))
    ∧ (∀ u : ℚ, 1 < u → processBreakoutCommand filters (some u)
      = ({ filters with priceBreakoutThreshold := u }, false))
    ∧ (∀ v : ℚ, ¬ 0 < v → processVolumeCommand filters (some v)
      = (filters, true))
    ∧ (∀ (f : MdFilters) (u : ℚ),
      (mdUpdateFilters f ⟨none, some u, none, none, none⟩).priceBreakout = u) := by
  refine ⟨?_, rfl, ?_, ?_, ?_⟩
  · simp [processBreakoutCommand, h]
  · intro u hu
    simp [processBreakoutCommand, hu]
  · intro v hv
    simp [processVolumeCommand, hv]
  · intro f u
    rfl

/-- C8 witness: the rejection law at the concrete invalid threshold 0.5. -/
theorem breakout_command_validation_witness :
    (processBreakoutCommand defaultScannerFilters (some (1/2))
      = (defaultScannerFilters, true))
    ∧ ¬ (1 : ℚ) < 1/2 :=
  ⟨(breakout_command_validation defaultScannerFilters (1/2)
      (by norm_num)).1, by norm_num⟩

/-- C8 counterexample: MarketDataService's `updateFilters` accepts the
invalid breakout threshold 0.5 (which violates the > 1 constraint) and
changes the active configuration, refuting the claimed rejection with the
previous configuration left in effect. -/
theorem updateFilters_no_validation :
    ((mdUpdateFilters defaultMdFilters
      ⟨none, some (1/2), none, none, none⟩).priceBreakout = 1/2)
    ∧ (defaultMdFilters.priceBreakout = 101/100)
    ∧ ¬ ((1 : ℚ) < 1/2) := by
  norm_num [mdUpdateFilters, defaultMdFilters]

/-! ## C9: confidence bounds -/

/-- C9: for every market data input and every signal-type list,
`calculateConfidence` returns an integer in [50, 95]; with the default
`minConfidence` of 10 the rejection branch of `generateSignal` can
therefore never fire, and every generated signal carries a confidence of
at least 50. -/
theorem calculateConfidence_bounds (md : TickerState)
    (signalTypes : List String) :
    (50 ≤ calculateConfidence md signalTypes)
    ∧ (calculateConfidence md signalTypes ≤ 95)
    ∧ ¬ (calculateConfidence md signalTypes < defaultMinConfidence)
    ∧ (∀ (isGen : Bool) (coins : List String) (s : GeneratedSignal),
      generateSignal isGen coins defaultMinConfidence md signalTypes = some s
        → 50 ≤ s.confidence) := by
  have h50 : 50 ≤ calculateConfidence md signalTypes := by
    unfold calculateConfidence
    exact le_min (by norm_num) (le_max_left _ _)
  have h95 : calculateConfidence md signalTypes ≤ 95 := by
    unfold calculateConfidence
    exact min_le_left _ _
  refine ⟨h50, h95, ?_, ?_⟩
  · unfold defaultMinConfidence
    omega
  · intro isGen coins s hs
    unfold generateSignal at hs
    split_ifs at hs <;>
      (rw [Option.some.injEq] at hs
       rw [← hs]
       exact h50)

/-- C9 witness: a concrete generated signal (generation on, no coin
filter, basic activity) whose confidence is exactly the lower bound 50. -/
theorem calculateConfidence_bounds_witness :
    (generateSignal true [] defaultMinConfidence cexWhaleTicker
      ["basic_activity"] = some ⟨"BTCUSDT", "LONG", 50⟩)
    ∧ 50 ≤ (GeneratedSignal.mk "BTCUSDT" "LONG" 50).confidence :=
  ⟨by
      simp [generateSignal, calculateConfidence, defaultMinConfidence,
        cexWhaleTicker]
      norm_num,
   (calculateConfidence_bounds cexWhaleTicker ["basic_activity"]).2.2.2
     true [] ⟨"BTCUSDT", "LONG", 50⟩
     (by
       simp [generateSignal, calculateConfidence, defaultMinConfidence,
         cexWhaleTicker]
       norm_num)⟩

/-! ## C10: broadcast channel filtering -/

/-- C10: in `WebSocketService.broadcast`, an open client that never sent a
subscribe message (no subscription set at all) receives every published
message, including channel-scoped ones, and is among the recipients of
every broadcast; a client whose subscription set exists but lacks the
published channel receives nothing on that channel. -/
theorem broadcast_subscription_filtering (client : WsClient)
    (channel : Option String) :
    (client.isOpen = true → client.subscriptions = none →
      wsClientReceives client channel = true)
    ∧ (∀ (subs : List String) (ch : String),
      client.subscriptions = some subs → ch ∉ subs →
      wsClientReceives client (some ch) = false)
    ∧ (∀ clients : List WsClient, client ∈ clients → client.isOpen = true →
      client.subscriptions = none →
      client ∈ wsBroadcastRecipients clients channel) := by
  refine ⟨?_, ?_, ?_⟩
  · intro hopen hsub
    unfold wsClientReceives
    rw [hopen, hsub]
    cases channel <;> simp
  · intro subs ch hsub hch
    unfold wsClientReceives
    rw [hsub]
    cases hopen : client.isOpen <;> simp [hch]
  · intro clients hmem hopen hsub
    unfold wsBroadcastRecipients
    rw [List.mem_filter]
    refine ⟨hmem, ?_⟩
    unfold wsClientReceives
    rw [hopen, hsub]
    cases channel <;> simp

/-- C10 witness: an open never-subscribed client receives a
channel-scoped broadcast that a client subscribed only to "signals" does
not receive. -/
theorem broadcast_subscription_filtering_witness :
    (wsClientReceives ⟨true, none⟩ (some "market") = true)
    ∧ (wsClientReceives ⟨true, some ["signals"]⟩ (some "market") = false) :=
  ⟨(broadcast_subscription_filtering ⟨true, none⟩ (some "market")).1 rfl rfl,
   (broadcast_subscription_filtering ⟨true, some ["signals"]⟩
     (some "market")).2.1 ["signals"] "market" rfl (by simp)⟩

end ByBitSpec
